import Mathlib

/-!
# PitchFinder — verification of the ranking-pipeline claims

Shallow embedding of the core of `src/app.py` (PitchFinder V3.6):
tag-based filters, the recommendation scoring, ETA/stars derivation and the
run pipeline (lines 613–641 of the source).  Numeric columns are modelled
over `ℚ`; pandas/numpy rounding (`round`, `.round(n)`) is round-half-to-even,
modelled by `rhe` below.  DataFrames are modelled as `List PitchRecord`;
derived columns (`eta_min`, `score_raw`, `stars5`) are pure functions of a
row's base fields and the active profile/selection, so they are modelled as
functions of the record rather than materialised fields.  The source sorts
with `pandas.sort_values` (default kind `quicksort`); the embedding uses a
correct comparison sort for the same key, leaving the order of exact ties
unspecified just as the source does.
-/

/-- Round half to even (banker's rounding), the rounding used by
numpy/pandas `round`. -/
def rhe (q : ℚ) : ℤ :=
  let f := ⌊q⌋
  if q - f < 1/2 then f
  else if q - f > 1/2 then f + 1
  else if f % 2 = 0 then f else f + 1

/-- Round to one decimal place, half to even (pandas `.round(1)`). -/
def round1 (q : ℚ) : ℚ := (rhe (q * 10) : ℚ) / 10

/-- pandas `.clip(lower, upper)` on rationals. -/
def clampQ (lo hi q : ℚ) : ℚ := max lo (min hi q)

/-- `.clip(lower, upper)` on integers (used for the star rating). -/
def clampZ (lo hi n : ℤ) : ℤ := max lo (min hi n)

/-- Substring test on character lists: some split of `s` has `pat` next. -/
def charsContain (s pat : List Char) : Bool :=
  (List.range (s.length + 1)).any (fun i => pat.isPrefixOf (s.drop i))

/-- `pat in s` on strings (pandas `.str.contains` with a literal
alternative, applied to one alternative). -/
def strContains (s pat : String) : Bool := charsContain s.data pat.data

/-- A regex alternation `a|b|...` used as a pandas `.str.contains` pattern:
true when any alternative occurs as a substring. -/
def containsAnyKw (s : String) (kws : List String) : Bool :=
  kws.any (fun k => strContains s k)

/-- ASCII `str.lower()`. -/
def lowerStr (s : String) : String := ⟨s.data.map Char.toLower⟩

/-- `str.strip()`: drop whitespace from both ends. -/
def trimStr (s : String) : String :=
  ⟨((s.data.dropWhile Char.isWhitespace).reverse.dropWhile Char.isWhitespace).reverse⟩

/-- Python `(x or default).lower().strip()` where `x` is an optional string
(`None` and `""` are both falsy). -/
def normChoice (v : Option String) (dflt : String) : String :=
  trimStr (lowerStr (match v with
    | none => dflt
    | some s => if s = "" then dflt else s))

/-- One row of the pitch DataFrame built by `pitches_to_df` (the fields the
filter/score pipeline reads). -/
structure PitchRecord where
  name : String
  distance_km : ℚ
  surface : String
  access : String
  fee : String
  indoor : String
  deriving Repr, DecidableEq

/-- Keyword list of the `grass` surface pattern `"grass|gazon"`. -/
def grassKws : List String := ["grass", "gazon"]

/-- Keyword list of the `clay` surface pattern `"clay|sand|dirt|terre"`. -/
def clayKws : List String := ["clay", "sand", "dirt", "terre"]

/-- Keyword list of the `synthetic` surface pattern
`"artificial|synthetic|turf|rubber|artificial_turf"`. -/
def synthKws : List String := ["artificial", "synthetic", "turf", "rubber", "artificial_turf"]

/-- Keyword list of the city name pattern `"five|city|urban"`. -/
def cityNameKws : List String := ["five", "city", "urban"]

/-- The `city` predicate: `indoor` contains `"yes"`, or the lowercased name
contains `five`/`city`/`urban` (source lines 263–267, 312–317, 324–329). -/
def cityMatch (r : PitchRecord) : Bool :=
  strContains r.indoor "yes" || containsAnyKw (lowerStr r.name) cityNameKws

/-- `filter_by_pitch_type` (source lines 254–268). -/
def filter_by_pitch_type (df : List PitchRecord) (pitch_type : Option String) :
    List PitchRecord :=
  let pt := normChoice pitch_type "all"
  if pt = "grass" then df.filter (fun r => containsAnyKw r.surface grassKws)
  else if pt = "clay" then df.filter (fun r => containsAnyKw r.surface clayKws)
  else if pt = "synthetic" then df.filter (fun r => containsAnyKw r.surface synthKws)
  else if pt = "city" then df.filter (fun r => cityMatch r)
  else df

/-- `fee` contains `"yes"` or `"true"` (pattern `"yes|true"`, source
lines 274 and 331). -/
def isPaid (r : PitchRecord) : Bool :=
  strContains r.fee "yes" || strContains r.fee "true"

/-- `apply_paid_filter` (source lines 271–275). -/
def apply_paid_filter (df : List PitchRecord) (paid_filter : Option String) :
    List PitchRecord :=
  let pf := normChoice paid_filter "show_all"
  if pf = "hide_paid" then df.filter (fun r => !(isPaid r)) else df

/-- A preference profile: travel mode and preferred categories. -/
structure Profile where
  mode : String
  prefer : List String
  deriving Repr, DecidableEq

/-- The `PROFILES` dict (source lines 281–285). -/
def PROFILES : List (String × Profile) :=
  [("Walking", ⟨"walk", ["city", "synthetic"]⟩),
   ("Student Budget", ⟨"walk", ["grass", "synthetic"]⟩),
   ("Car", ⟨"car", ["grass", "synthetic"]⟩)]

/-- `SPEED_KMH.get(mode, 5)` (source line 286 and 290). -/
def SPEED_KMH (mode : String) : ℚ :=
  if mode = "walk" then 5 else if mode = "car" then 30 else 5

/-- The `eta_min` column of `add_eta_minutes` (source lines 289–293):
`(distance_km / speed * 60).round(0).astype(int)`. -/
def eta_min_fn (mode : String) (r : PitchRecord) : ℤ :=
  rhe (r.distance_km / SPEED_KMH mode * 60)

/-- The `+6` selected-type bonus of `add_recommendation_score` (source
lines 304–317): applied only when a specific type (not `all`) is selected
and the record matches that type's predicate; `pt` is already normalised. -/
def selectedBonus (pt : String) (r : PitchRecord) : ℚ :=
  if pt ≠ "all" then
    if pt = "grass" then (if containsAnyKw r.surface grassKws then 6 else 0)
    else if pt = "synthetic" then (if containsAnyKw r.surface synthKws then 6 else 0)
    else if pt = "clay" then (if containsAnyKw r.surface clayKws then 6 else 0)
    else if pt = "city" then (if cityMatch r then 6 else 0)
    else 0
  else 0

/-- One iteration of the preference loop of `add_recommendation_score`
(source lines 319–329): three independent `if`s on the preference `p`. -/
def preferBonus (p : String) (r : PitchRecord) : ℚ :=
  (if p = "grass" ∧ containsAnyKw r.surface grassKws then 4 else 0) +
  (if p = "synthetic" ∧ containsAnyKw r.surface synthKws then 4 else 0) +
  (if p = "city" ∧ cityMatch r then 4 else 0)

/-- The `score_raw` column of `add_recommendation_score` (source lines
296–332): `100 - 10*distance`, selected-type bonus, preference bonuses,
fee penalty, clip to `[0, 100]`, round to 1 decimal. -/
def score_raw_fn (profile : Profile) (pitch_type_selected : Option String)
    (r : PitchRecord) : ℚ :=
  let base : ℚ := 100 - r.distance_km * 10
  let pt := normChoice pitch_type_selected "all"
  let s1 := base + selectedBonus pt r
  let s2 := s1 + (profile.prefer.map (fun p => preferBonus p r)).sum
  let s3 := if isPaid r then s2 - 15 else s2
  round1 (clampQ 0 100 s3)

/-- The `stars5` column (source line 333):
`(score_raw / 20).round().clip(lower=0, upper=5).astype(int)`. -/
def stars5_fn (profile : Profile) (pitch_type_selected : Option String)
    (r : PitchRecord) : ℤ :=
  clampZ 0 5 (rhe (score_raw_fn profile pitch_type_selected r / 20))

/-- The ranking key of `df_ranked` (source lines 636–639): sort by
`score_raw` descending, `distance_km` ascending. -/
def rankedLe (profile : Profile) (pitch_type : Option String)
    (a b : PitchRecord) : Prop :=
  score_raw_fn profile pitch_type b < score_raw_fn profile pitch_type a ∨
    (score_raw_fn profile pitch_type a = score_raw_fn profile pitch_type b ∧
      a.distance_km ≤ b.distance_km)

instance (profile : Profile) (pitch_type : Option String) :
    DecidableRel (rankedLe profile pitch_type) := fun a b => by
  unfold rankedLe; infer_instance

instance (profile : Profile) (pitch_type : Option String) :
    IsTotal PitchRecord (rankedLe profile pitch_type) where
  total a b := by
    unfold rankedLe
    rcases lt_trichotomy (score_raw_fn profile pitch_type a)
      (score_raw_fn profile pitch_type b) with h | h | h
    · exact Or.inr (Or.inl h)
    · rcases le_total a.distance_km b.distance_km with hd | hd
      · exact Or.inl (Or.inr ⟨h, hd⟩)
      · exact Or.inr (Or.inr ⟨h.symm, hd⟩)
    · exact Or.inl (Or.inl h)

instance (profile : Profile) (pitch_type : Option String) :
    IsTrans PitchRecord (rankedLe profile pitch_type) where
  trans a b c hab hbc := by
    unfold rankedLe at *
    rcases hab with h1 | ⟨h1, d1⟩
    · rcases hbc with h2 | ⟨h2, _⟩
      · exact Or.inl (h2.trans h1)
      · exact Or.inl (h2 ▸ h1)
    · rcases hbc with h2 | ⟨h2, d2⟩
      · exact Or.inl (h1 ▸ h2)
      · exact Or.inr ⟨h1.trans h2, d1.trans d2⟩

/-- The three user-facing empty-result reasons of the run pipeline
(source lines 616–626): distinct `last_error` messages. -/
inductive EmptyReason where
  | NoResultsFound
  | NoResultsInRadius
  | AllFilteredOut
  deriving Repr, DecidableEq

/-- The run pipeline from the catalog on (source lines 613–641): radius
restriction, paid filter, ETA/score columns, pitch-type filter with
fallback, sort by (score desc, distance asc), head `top_n`.  The ETA and
score columns are pure per-row functions (`eta_min_fn`, `score_raw_fn`,
`stars5_fn`), so the record list itself is threaded through. -/
def run_pipeline (df : List PitchRecord) (radius_km : ℚ) (profile : Profile)
    (pitch_type paid_filter : Option String) (top_n : ℕ) :
    Except EmptyReason (List PitchRecord) :=
  if df.isEmpty then .error .NoResultsFound
  else
    let df_r := df.filter (fun r => r.distance_km ≤ radius_km)
    if df_r.isEmpty then .error .NoResultsInRadius
    else
      let df_p := apply_paid_filter df_r paid_filter
      if df_p.isEmpty then .error .AllFilteredOut
      else
        let df_f := filter_by_pitch_type df_p pitch_type
        let df_f2 := if df_f.isEmpty then df_p else df_f
        let df_ranked := List.insertionSort (rankedLe profile pitch_type) df_f2
        .ok (df_ranked.take top_n)

deriving instance DecidableEq for Except

/-- The distinct `last_error` message each empty-result reason produces
(source lines 617, 622, 626). -/
def reason_message : EmptyReason → String
  | .NoResultsFound => "No pitches found. Try increasing the radius or changing the address."
  | .NoResultsInRadius => "No pitches within the selected radius."
  | .AllFilteredOut => "No pitches after paid filter."

/-- Written from the spec's words (§4.3) for the refinement claim about the
score formula: the predicate of a selected pitch-type category; categories
outside the four recognized ones have no predicate (never match). -/
def claimTypeMatch (cat : String) (r : PitchRecord) : Bool :=
  if cat = "grass" then containsAnyKw r.surface grassKws
  else if cat = "clay" then containsAnyKw r.surface clayKws
  else if cat = "synthetic" then containsAnyKw r.surface synthKws
  else if cat = "city" then cityMatch r
  else false

/-- Written from the spec's words (§4.4) for the refinement claim about the
score: start at 100, subtract `10 * distanceKm`, add 6 when a specific type
(not `all`) is selected and matched, add 4 for each preferred category the
record matches, subtract 15 when the fee tag says paid, clamp to `[0, 100]`
and round to 1 decimal. -/
def scoreSpec (prefer : List String) (pt : String) (r : PitchRecord) : ℚ :=
  round1 (clampQ 0 100 (100 - 10 * r.distance_km
    + (if pt ≠ "all" ∧ claimTypeMatch pt r then 6 else 0)
    + 4 * (((prefer.filter (fun p => claimTypeMatch p r)).length : ℚ))
    - (if isPaid r then 15 else 0)))

/-- The `Walking` profile: walk mode, prefers `city` and `synthetic`. -/
def walkingProfile : Profile := ⟨"walk", ["city", "synthetic"]⟩

/-- The record of the spec's Bordeaux scenario: distance 1.0 km, grass
surface, empty fee tag, default name. -/
def rScenario : PitchRecord := ⟨"Unnamed pitch", 1, "grass", "", "", ""⟩

/-- A record whose `indoor` tag contains `"yes"` without being equal to it,
and whose name matches no city keyword. -/
def rIndoorCex : PitchRecord := ⟨"pitch a", 1, "", "", "", "eyes"⟩

/-- A plain free grass record 1 km away, used as a concrete input. -/
def rPlain : PitchRecord := ⟨"a", 1, "grass", "", "", ""⟩

/-- A paid record (fee tag `"yes"`) 1 km away. -/
def rPaid : PitchRecord := ⟨"b", 1, "grass", "", "yes", ""⟩

lemma rhe_le_floor_add_one (q : ℚ) : rhe q ≤ ⌊q⌋ + 1 := by
  unfold rhe
  dsimp only
  split_ifs <;> omega

lemma floor_le_rhe (q : ℚ) : ⌊q⌋ ≤ rhe q := by
  unfold rhe
  dsimp only
  split_ifs <;> omega

lemma rhe_mono {q q' : ℚ} (h : q ≤ q') : rhe q ≤ rhe q' := by
  rcases lt_or_eq_of_le (Int.floor_le_floor h) with hf | hf
  · calc rhe q ≤ ⌊q⌋ + 1 := rhe_le_floor_add_one q
      _ ≤ ⌊q'⌋ := by omega
      _ ≤ rhe q' := floor_le_rhe q'
  · have h1 : q - (⌊q⌋ : ℚ) ≤ q' - (⌊q'⌋ : ℚ) := by
      rw [← hf]; linarith
    unfold rhe
    dsimp only
    rw [← hf]
    split_ifs <;> first | omega | linarith
  
lemma round1_mono {q q' : ℚ} (h : q ≤ q') : round1 q ≤ round1 q' := by
  unfold round1
  have := rhe_mono (by linarith : q * 10 ≤ q' * 10)
  have h2 : ((rhe (q * 10) : ℚ)) ≤ ((rhe (q' * 10) : ℚ)) := by exact_mod_cast this
  linarith

lemma clampQ_mono {lo hi q q' : ℚ} (h : q ≤ q') : clampQ lo hi q ≤ clampQ lo hi q' := by
  unfold clampQ
  exact max_le_max le_rfl (min_le_min le_rfl h)

lemma apply_paid_filter_nil (pf : Option String) : apply_paid_filter [] pf = [] := by
  unfold apply_paid_filter
  dsimp only
  split_ifs <;> rfl

lemma apply_paid_filter_subset (df : List PitchRecord) (pf : Option String) :
    apply_paid_filter df pf ⊆ df := by
  unfold apply_paid_filter
  dsimp only
  split_ifs
  · exact fun x hx => List.mem_of_mem_filter hx
  · exact fun _ h => h

lemma filter_by_pitch_type_subset (df : List PitchRecord) (pt : Option String) :
    filter_by_pitch_type df pt ⊆ df := by
  unfold filter_by_pitch_type
  dsimp only
  split_ifs <;> first | exact fun x hx => List.mem_of_mem_filter hx | exact fun _ h => h

lemma run_pipeline_ok_shape {df : List PitchRecord} {radius_km : ℚ} {profile : Profile}
    {pt pf : Option String} {top_n : ℕ} {l : List PitchRecord}
    (h : run_pipeline df radius_km profile pt pf top_n = .ok l) :
    apply_paid_filter (df.filter (fun r => r.distance_km ≤ radius_km)) pf ≠ [] ∧
      l = (List.insertionSort (rankedLe profile pt)
        (if (filter_by_pitch_type
              (apply_paid_filter (df.filter (fun r => r.distance_km ≤ radius_km)) pf)
              pt).isEmpty = true
          then apply_paid_filter (df.filter (fun r => r.distance_km ≤ radius_km)) pf
          else filter_by_pitch_type
            (apply_paid_filter (df.filter (fun r => r.distance_km ≤ radius_km)) pf)
            pt)).take top_n := by
  unfold run_pipeline at h
  dsimp only at h
  split_ifs at h with h1 h2 h3 h4
  · refine ⟨by simpa [List.isEmpty_iff] using h3, ?_⟩
    rw [Except.ok.injEq] at h
    rw [if_pos h4]
    exact h.symm
  · refine ⟨by simpa [List.isEmpty_iff] using h3, ?_⟩
    rw [Except.ok.injEq] at h
    rw [if_neg h4]
    exact h.symm

/-- C6 counterexample: the claim reads the city rule as `indoor == "yes"`,
but the code tests substring containment: a record with `indoor = "eyes"`
and a keyword-free name is kept by the city filter even though its indoor
tag does not equal `"yes"` and its name matches no keyword. -/
theorem C6_city_equals_counterexample :
    rIndoorCex ∈ filter_by_pitch_type [rIndoorCex] (some "city") ∧
    ¬(rIndoorCex.indoor = "yes" ∨ containsAnyKw (lowerStr rIndoorCex.name) cityNameKws = true) := by
  decide

/-- C6 (amended): the city filter keeps a record iff its indoor tag
CONTAINS `"yes"` or its lowercased name contains `five`/`city`/`urban`;
the `all` pitch type is the identity filter. -/
theorem C6_city_filter_amended :
    ∀ (df : List PitchRecord) (r : PitchRecord),
      (r ∈ filter_by_pitch_type df (some "city") ↔
        r ∈ df ∧ (strContains r.indoor "yes" = true ∨
          containsAnyKw (lowerStr r.name) cityNameKws = true)) ∧
      filter_by_pitch_type df (some "all") = df := by
  intro df r
  have hc : normChoice (some "city") "all" = "city" := by decide
  have ha : normChoice (some "all") "all" = "all" := by decide
  constructor
  · simp [filter_by_pitch_type, hc, List.mem_filter, cityMatch]
  · simp [filter_by_pitch_type, ha]

/-- C10: any pitch-type value that does not normalise (lowercase, strip,
`None`/empty → `all`) to one of the four recognized categories leaves the
catalog unchanged. -/
theorem C10_unrecognized_type_identity (df : List PitchRecord)
    (pitch_type : Option String)
    (h : normChoice pitch_type "all" ∉ (["grass", "clay", "synthetic", "city"] : List String)) :
    filter_by_pitch_type df pitch_type = df := by
  simp only [List.mem_cons, List.not_mem_nil, or_false, not_or] at h
  obtain ⟨h1, h2, h3, h4⟩ := h
  unfold filter_by_pitch_type
  dsimp only
  rw [if_neg h1, if_neg h2, if_neg h3, if_neg h4]

/-- C10 witness: an arbitrary unrecognized string (with case and
whitespace noise) is the identity filter on a concrete catalog. -/
theorem C10_unrecognized_type_identity_witness :
    filter_by_pitch_type [rPlain] (some " FOO ") = [rPlain] :=
  C10_unrecognized_type_identity [rPlain] (some " FOO ") (by decide)

/-- C8: the Bordeaux scenario: a single record 1.0 km away with grass
surface and empty fee tag, Walking profile, pitch type `all`, gives
`score_raw = 90.0`, `stars5 = 4` (round(4.5) is 4 under half-even
rounding), `eta_min = round(1/5*60) = 12`. -/
theorem C8_bordeaux_scenario :
    PROFILES.lookup "Walking" = some walkingProfile ∧
    score_raw_fn walkingProfile (some "all") rScenario = 90 ∧
    stars5_fn walkingProfile (some "all") rScenario = 4 ∧
    eta_min_fn walkingProfile.mode rScenario = 12 := by
  have hs : score_raw_fn walkingProfile (some "all") rScenario = 90 := by
    have h1 : normChoice (some "all") "all" = "all" := by decide
    have h2 : isPaid rScenario = false := by decide
    have h3 : cityMatch rScenario = false := by decide
    have h4 : containsAnyKw rScenario.surface synthKws = false := by decide
    have hd : rScenario.distance_km = 1 := rfl
    have s1 : ¬ (("city" : String) = "grass") := by decide
    have s2 : ¬ (("synthetic" : String) = "grass") := by decide
    simp only [score_raw_fn, h1, h2, walkingProfile, selectedBonus, preferBonus, h3, h4,
      hd, List.map, s1, s2, Bool.false_eq_true, and_false, false_and, if_false, ite_false,
      ne_eq, not_true, not_false_iff]
    norm_num [round1, clampQ, rhe, max_def, min_def, List.sum]
  refine ⟨by decide, hs, ?_, by norm_num [eta_min_fn, rScenario, walkingProfile, SPEED_KMH, rhe]⟩
  rw [stars5_fn, hs]
  norm_num [rhe, clampZ, max_def, min_def]

/-- C4: the pipeline returns an empty result only through one of three
distinct reasons, checked in this order: `NoResultsFound` iff the catalog
is empty; `NoResultsInRadius` iff it is nonempty but no record is within
the radius; `AllFilteredOut` iff in-radius records exist but the paid
filter removes all of them; the three user-facing messages are pairwise
distinct, and a successful run never returns an empty list (for a positive
`top_n`; the UI slider keeps `top_n ≥ 5`). -/
theorem C4_empty_reasons (df : List PitchRecord) (radius_km : ℚ) (profile : Profile)
    (pt pf : Option String) (top_n : ℕ) (htop : 1 ≤ top_n) :
    (run_pipeline df radius_km profile pt pf top_n = .error .NoResultsFound ↔ df = []) ∧
    (run_pipeline df radius_km profile pt pf top_n = .error .NoResultsInRadius ↔
      df ≠ [] ∧ df.filter (fun r => r.distance_km ≤ radius_km) = []) ∧
    (run_pipeline df radius_km profile pt pf top_n = .error .AllFilteredOut ↔
      df ≠ [] ∧ df.filter (fun r => r.distance_km ≤ radius_km) ≠ [] ∧
        apply_paid_filter (df.filter (fun r => r.distance_km ≤ radius_km)) pf = []) ∧
    (∀ l, run_pipeline df radius_km profile pt pf top_n = .ok l → l ≠ []) ∧
    reason_message .NoResultsFound ≠ reason_message .NoResultsInRadius ∧
    reason_message .NoResultsFound ≠ reason_message .AllFilteredOut ∧
    reason_message .NoResultsInRadius ≠ reason_message .AllFilteredOut := by
  have hmsg1 : reason_message .NoResultsFound ≠ reason_message .NoResultsInRadius := by decide
  have hmsg2 : reason_message .NoResultsFound ≠ reason_message .AllFilteredOut := by decide
  have hmsg3 : reason_message .NoResultsInRadius ≠ reason_message .AllFilteredOut := by decide
  unfold run_pipeline
  dsimp only
  by_cases c1 : df.isEmpty = true
  · have hdf : df = [] := by simpa [List.isEmpty_iff] using c1
    subst hdf
    simp [hmsg1, hmsg2, hmsg3]
  · have hdf : df ≠ [] := by simpa [List.isEmpty_iff] using c1
    rw [if_neg c1]
    by_cases c2 : (df.filter (fun r => r.distance_km ≤ radius_km)).isEmpty = true
    · have h2 : df.filter (fun r => r.distance_km ≤ radius_km) = [] :=
        List.isEmpty_iff.mp c2
      rw [if_pos c2]
      simp [hdf, h2, hmsg1, hmsg2, hmsg3]
    · have h2 : df.filter (fun r => r.distance_km ≤ radius_km) ≠ [] := by
        simpa [List.isEmpty_iff] using c2
      rw [if_neg c2]
      by_cases c3 : (apply_paid_filter (df.filter (fun r => r.distance_km ≤ radius_km)) pf).isEmpty = true
      · have h3 : apply_paid_filter (df.filter (fun r => r.distance_km ≤ radius_km)) pf = [] :=
          List.isEmpty_iff.mp c3
        rw [if_pos c3]
        simp [hdf, h2, h3, hmsg1, hmsg2, hmsg3]
      · have h3 : apply_paid_filter (df.filter (fun r => r.distance_km ≤ radius_km)) pf ≠ [] := by
          simpa [List.isEmpty_iff] using c3
        rw [if_neg c3]
        refine ⟨by simp [hdf], by simp [h2], by simp [h3], ?_, hmsg1, hmsg2, hmsg3⟩
        intro l h
        rw [Except.ok.injEq] at h
        have hne : (if (filter_by_pitch_type
            (apply_paid_filter (df.filter (fun r => r.distance_km ≤ radius_km)) pf) pt).isEmpty = true
            then apply_paid_filter (df.filter (fun r => r.distance_km ≤ radius_km)) pf
            else filter_by_pitch_type
              (apply_paid_filter (df.filter (fun r => r.distance_km ≤ radius_km)) pf) pt) ≠ [] := by
          split_ifs with c4
          · exact h3
          · simpa [List.isEmpty_iff] using c4
        rw [← h]
        have hlen := (List.perm_insertionSort (rankedLe profile pt)
          (if (filter_by_pitch_type
            (apply_paid_filter (df.filter (fun r => r.distance_km ≤ radius_km)) pf) pt).isEmpty = true
            then apply_paid_filter (df.filter (fun r => r.distance_km ≤ radius_km)) pf
            else filter_by_pitch_type
              (apply_paid_filter (df.filter (fun r => r.distance_km ≤ radius_km)) pf) pt)).length_eq
        have hpos : 0 < (if (filter_by_pitch_type
            (apply_paid_filter (df.filter (fun r => r.distance_km ≤ radius_km)) pf) pt).isEmpty = true
            then apply_paid_filter (df.filter (fun r => r.distance_km ≤ radius_km)) pf
            else filter_by_pitch_type
              (apply_paid_filter (df.filter (fun r => r.distance_km ≤ radius_km)) pf) pt).length :=
          List.length_pos.mpr hne
        apply List.ne_nil_of_length_pos
        rw [List.length_take]
        omega

/-- C4 witness: on the empty catalog the pipeline signals
`NoResultsFound`. -/
theorem C4_empty_reasons_witness :
    run_pipeline [] 5 walkingProfile (some "all") none 10 = .error .NoResultsFound :=
  ((C4_empty_reasons [] 5 walkingProfile (some "all") none 10 (by decide)).1).mpr rfl

/-- C3: when the radius-restricted, paid-filtered set is nonempty but the
pitch-type filter would empty it, the pipeline returns the pre-type-filter
set, ranked and truncated to `top_n`, not the empty sequence. -/
theorem C3_type_filter_fallback (df : List PitchRecord) (radius_km : ℚ) (profile : Profile)
    (pt pf : Option String) (top_n : ℕ)
    (hp : apply_paid_filter (df.filter (fun r => r.distance_km ≤ radius_km)) pf ≠ [])
    (hf : filter_by_pitch_type
      (apply_paid_filter (df.filter (fun r => r.distance_km ≤ radius_km)) pf) pt = []) :
    run_pipeline df radius_km profile pt pf top_n =
      .ok ((List.insertionSort (rankedLe profile pt)
        (apply_paid_filter (df.filter (fun r => r.distance_km ≤ radius_km)) pf)).take top_n) := by
  have hr : df.filter (fun r => r.distance_km ≤ radius_km) ≠ [] := by
    intro h0
    exact hp (by rw [h0, apply_paid_filter_nil])
  have hdf : df ≠ [] := by
    intro h0
    apply hr
    rw [h0]
    rfl
  unfold run_pipeline
  dsimp only
  rw [if_neg (by simpa [List.isEmpty_iff] using hdf),
      if_neg (by simpa [List.isEmpty_iff] using hr),
      if_neg (by simpa [List.isEmpty_iff] using hp),
      if_pos (by simpa [List.isEmpty_iff] using hf)]

/-- C3 witness: a single grass record matches nothing for pitch type
`city`, and the pipeline still returns it. -/
theorem C3_type_filter_fallback_witness :
    run_pipeline [rPlain] 5 walkingProfile (some "city") none 10 = .ok [rPlain] :=
  (C3_type_filter_fallback [rPlain] 5 walkingProfile (some "city") none 10
    (by decide) (by decide)).trans (by decide)

/-- C9: with the `hide_paid` filter, no record of a successful run's output
has a fee tag containing `yes` or `true`; the pitch-type fallback reverts
only the type filter, to a set that already had the paid filter applied. -/
theorem C9_hide_paid_invariant (df : List PitchRecord) (radius_km : ℚ) (profile : Profile)
    (pt : Option String) (top_n : ℕ) (l : List PitchRecord) (r : PitchRecord)
    (h : run_pipeline df radius_km profile pt (some "hide_paid") top_n = .ok l)
    (hr : r ∈ l) : isPaid r = false := by
  obtain ⟨-, hl⟩ := run_pipeline_ok_shape h
  subst hl
  have h1 := List.take_subset _ _ hr
  have h2 := (List.perm_insertionSort (rankedLe profile pt) _).subset h1
  have h3 : r ∈ apply_paid_filter
      (df.filter (fun x => x.distance_km ≤ radius_km)) (some "hide_paid") := by
    revert h2
    split_ifs with c
    · exact fun h2 => h2
    · exact fun h2 => filter_by_pitch_type_subset _ _ h2
  have hn : normChoice (some "hide_paid") "show_all" = "hide_paid" := by decide
  unfold apply_paid_filter at h3
  dsimp only at h3
  rw [hn, if_pos rfl] at h3
  simpa using List.of_mem_filter h3

/-- C9 witness: a free record survives a `hide_paid` run and the theorem
certifies its fee tag clean. -/
theorem C9_hide_paid_invariant_witness : isPaid rPlain = false :=
  C9_hide_paid_invariant [rPlain] 5 walkingProfile (some "all") 10 [rPlain] rPlain
    (by decide) (by decide)

/-- C2: every successful run's output is sorted by `score_raw` descending
with `distance_km` ascending as the tie-break: adjacent pairs `(A, B)`
satisfy `A.score > B.score` or (`A.score = B.score` and
`A.distance ≤ B.distance`). -/
theorem C2_ranking_order (df : List PitchRecord) (radius_km : ℚ) (profile : Profile)
    (pt pf : Option String) (top_n : ℕ) (l : List PitchRecord)
    (h : run_pipeline df radius_km profile pt pf top_n = .ok l) :
    l.Chain' (fun a b =>
      score_raw_fn profile pt a > score_raw_fn profile pt b ∨
        (score_raw_fn profile pt a = score_raw_fn profile pt b ∧
          a.distance_km ≤ b.distance_km)) := by
  obtain ⟨-, hl⟩ := run_pipeline_ok_shape h
  subst hl
  have hs := List.sorted_insertionSort (rankedLe profile pt)
    (if (filter_by_pitch_type
          (apply_paid_filter (df.filter (fun r => r.distance_km ≤ radius_km)) pf)
          pt).isEmpty = true
      then apply_paid_filter (df.filter (fun r => r.distance_km ≤ radius_km)) pf
      else filter_by_pitch_type
        (apply_paid_filter (df.filter (fun r => r.distance_km ≤ radius_km)) pf)
        pt)
  have hp := hs.sublist (List.take_sublist top_n _)
  exact hp.chain'

/-- C2 witness: a concrete successful run whose output the theorem
certifies sorted. -/
theorem C2_ranking_order_witness :
    List.Chain' (fun a b =>
      score_raw_fn walkingProfile (some "all") a > score_raw_fn walkingProfile (some "all") b ∨
        (score_raw_fn walkingProfile (some "all") a = score_raw_fn walkingProfile (some "all") b ∧
          a.distance_km ≤ b.distance_km)) [rPlain] :=
  C2_ranking_order [rPlain] 5 walkingProfile (some "all") (some "show_all") 10 [rPlain]
    (by decide)

/-- C5: for a fixed profile and pitch-type selection, and two records
identical in every tag field, the farther record never scores higher:
the distance penalty is antitone through bonus, clamp and rounding. -/
theorem C5_distance_antitone (profile : Profile) (pt : Option String)
    (name surface access fee indoor : String) (d1 d2 : ℚ) (h : d1 ≤ d2) :
    score_raw_fn profile pt ⟨name, d2, surface, access, fee, indoor⟩ ≤
      score_raw_fn profile pt ⟨name, d1, surface, access, fee, indoor⟩ := by
  have eSel : selectedBonus (normChoice pt "all") ⟨name, d2, surface, access, fee, indoor⟩
      = selectedBonus (normChoice pt "all") ⟨name, d1, surface, access, fee, indoor⟩ := rfl
  have ePref : (List.map (fun p => preferBonus p (⟨name, d2, surface, access, fee, indoor⟩ : PitchRecord)) profile.prefer).sum
      = (List.map (fun p => preferBonus p (⟨name, d1, surface, access, fee, indoor⟩ : PitchRecord)) profile.prefer).sum := rfl
  have ePaid : isPaid ⟨name, d2, surface, access, fee, indoor⟩
      = isPaid ⟨name, d1, surface, access, fee, indoor⟩ := rfl
  unfold score_raw_fn
  dsimp only
  apply round1_mono
  apply clampQ_mono
  rw [eSel, ePref, ePaid]
  split_ifs <;> linarith

/-- C5 witness: at distances 1 and 2 km with identical tags the farther
record scores no higher. -/
theorem C5_distance_antitone_witness :
    score_raw_fn walkingProfile (some "all") ⟨"a", 2, "grass", "", "", ""⟩ ≤
      score_raw_fn walkingProfile (some "all") ⟨"a", 1, "grass", "", "", ""⟩ :=
  C5_distance_antitone walkingProfile (some "all") "a" "grass" "" "" "" 1 2 (by norm_num)

lemma preferBonus_eq_claim (p : String) (r : PitchRecord)
    (hp : p ∈ (["grass", "synthetic", "city"] : List String)) :
    preferBonus p r = if claimTypeMatch p r then 4 else 0 := by
  simp only [List.mem_cons, List.not_mem_nil, or_false] at hp
  rcases hp with rfl | rfl | rfl
  · by_cases hg : containsAnyKw r.surface grassKws = true <;>
      simp [preferBonus, claimTypeMatch, hg]
  · by_cases hs : containsAnyKw r.surface synthKws = true <;>
      simp [preferBonus, claimTypeMatch, hs]
  · by_cases hc : cityMatch r = true <;>
      simp [preferBonus, claimTypeMatch, hc]

lemma prefer_sum_eq_claim (r : PitchRecord) (prefer : List String)
    (hp : ∀ p ∈ prefer, p ∈ (["grass", "synthetic", "city"] : List String)) :
    (prefer.map (fun p => preferBonus p r)).sum =
      4 * ((prefer.filter (fun p => claimTypeMatch p r)).length : ℚ) := by
  induction prefer with
  | nil => simp
  | cons p ps ih =>
    have h1 := preferBonus_eq_claim p r (hp p (by simp))
    have h2 := ih (fun q hq => hp q (by simp [hq]))
    simp only [List.map_cons, List.sum_cons, List.filter_cons, h1, h2]
    by_cases hc : claimTypeMatch p r = true
    · simp only [hc, if_pos, if_true, List.length_cons]
      push_cast
      ring
    · simp [hc]

lemma selectedBonus_eq_claim (pt : String) (r : PitchRecord)
    (hpt : pt ∈ (["all", "grass", "clay", "synthetic", "city"] : List String)) :
    selectedBonus pt r = if pt ≠ "all" ∧ claimTypeMatch pt r then 6 else 0 := by
  simp only [List.mem_cons, List.not_mem_nil, or_false] at hpt
  rcases hpt with rfl | rfl | rfl | rfl | rfl
  · simp [selectedBonus, claimTypeMatch]
  · by_cases hg : containsAnyKw r.surface grassKws = true <;>
      simp [selectedBonus, claimTypeMatch, hg]
  · by_cases hc : containsAnyKw r.surface clayKws = true <;>
      simp [selectedBonus, claimTypeMatch, hc]
  · by_cases hs : containsAnyKw r.surface synthKws = true <;>
      simp [selectedBonus, claimTypeMatch, hs]
  · by_cases hc : cityMatch r = true <;>
      simp [selectedBonus, claimTypeMatch, hc]

lemma profile_cases (pname : String) (profile : Profile)
    (hprof : PROFILES.lookup pname = some profile) :
    profile = ⟨"walk", ["city", "synthetic"]⟩ ∨
    profile = ⟨"walk", ["grass", "synthetic"]⟩ ∨
    profile = ⟨"car", ["grass", "synthetic"]⟩ := by
  simp only [PROFILES, List.lookup] at hprof
  split at hprof
  · exact Or.inl (Option.some.injEq _ _ ▸ hprof.symm ▸ rfl)
  · split at hprof
    · exact Or.inr (Or.inl (by injection hprof with h; exact h.symm))
    · split at hprof
      · exact Or.inr (Or.inr (by injection hprof with h; exact h.symm))
      · exact absurd hprof (by simp)

/-- C1: for each of the three profiles and each selectable pitch type, the
code's score equals the spec's formula: 100, minus `10 * distanceKm`, plus
6 when a specific type (not `all`) is selected and matched, plus 4 for
each preferred category the record matches (stacking with each other and
with the +6), minus 15 when the fee tag contains `yes`/`true`, clamped to
`[0, 100]` and rounded to 1 decimal. -/
theorem C1_score_formula (pname : String) (profile : Profile) (pt : String) (r : PitchRecord)
    (hprof : PROFILES.lookup pname = some profile)
    (hpt : pt ∈ (["all", "grass", "clay", "synthetic", "city"] : List String)) :
    score_raw_fn profile (some pt) r = scoreSpec profile.prefer pt r := by
  have hn : normChoice (some pt) "all" = pt := by
    simp only [List.mem_cons, List.not_mem_nil, or_false] at hpt
    rcases hpt with rfl | rfl | rfl | rfl | rfl <;> decide
  have hprefer : ∀ p ∈ profile.prefer, p ∈ (["grass", "synthetic", "city"] : List String) := by
    rcases profile_cases pname profile hprof with rfl | rfl | rfl <;>
      · intro p hp
        simp only [List.mem_cons, List.not_mem_nil, or_false] at hp
        rcases hp with rfl | rfl <;> simp
  unfold score_raw_fn scoreSpec
  dsimp only
  rw [hn, selectedBonus_eq_claim pt r hpt, prefer_sum_eq_claim r profile.prefer hprefer]
  congr 1
  congr 1
  split_ifs with hp <;> ring

/-- C1 witness: the Walking profile with selected type `grass` on the
Bordeaux record satisfies the spec formula. -/
theorem C1_score_formula_witness :
    score_raw_fn walkingProfile (some "grass") rScenario =
      scoreSpec walkingProfile.prefer "grass" rScenario :=
  C1_score_formula "Walking" walkingProfile "grass" rScenario (by decide) (by decide)
